import Mathlib

/-!
Shallow embedding of `src/web/main.py` (Dtma20/interpreter).

The program stages submitted source code into a fixed file, spawns the
external `minipar` interpreter as a child process, writes the user input
once to the child's stdin, and exposes the child's stdout as a lazy line
stream which `format_process_output` decorates before display.

The straight-line effectful code of `exec_minipar_with_input` is embedded
as a function producing the ordered list of side effects (`Event` trace)
together with the value it returns.  Filesystem effects are interpreted by
`runFS` over an explicit filesystem state.  The child process's behaviour
is opaque to the program, so the lines it would emit on stdout/stderr are
parameters of the embedding; `spawnOk` models whether `subprocess.Popen`
succeeds (it raises, e.g. `FileNotFoundError`, when the executable at the
configured path cannot be started, and the source has no handler, so the
exception propagates before any output is read).
-/

/-- `MINIPAR_PATH = "../minipar/minipar"` from the source. -/
def MINIPAR_PATH : String := "../minipar/minipar"

/-- Split a character list at every occurrence of `sep` (the pieces do
not contain `sep`; empty pieces are kept, as in Python's `str.split`). -/
def charListSplit (sep : Char) : List Char → List (List Char)
  | [] => [[]]
  | c :: rest =>
    match charListSplit sep rest with
    | [] => [[c]]
    | h :: t => if c = sep then [] :: h :: t else (c :: h) :: t

/-- The `/`-separated components of a path. -/
def splitOnSlash (s : String) : List String :=
  (charListSplit '/' s.data).map (fun cs => String.mk cs)

/-- Join path components with `/` (inverse of `splitOnSlash` on
non-empty component lists). -/
def joinSlash : List String → String
  | [] => ""
  | [s] => s
  | s :: rest => s ++ "/" ++ joinSlash rest

/-- Python `os.path.dirname` for slash-separated paths: everything before
the final `/` component (empty when there is no `/`). -/
def osPathDirname (p : String) : String :=
  let parts := splitOnSlash p
  if parts.length ≤ 1 then "" else joinSlash parts.dropLast

/-- Python `os.path.join a b` for the cases exercised by the source:
an absolute second component replaces the first, otherwise the two are
joined with a single `/` separator. -/
def osPathJoin (a b : String) : String :=
  if b.data.head? = some '/' then b
  else if a = "" then b
  else if a.data.getLast? = some '/' then a ++ b
  else a ++ "/" ++ b

/-- How a standard stream of the child is wired in `subprocess.Popen`:
`pipe` is `subprocess.PIPE` (a fresh dedicated pipe), `mergedIntoStdout`
is `subprocess.STDOUT` (redirect stderr into the stdout pipe).  The
source passes `subprocess.PIPE` for all three streams. -/
inductive StdStream where
  | pipe
  | mergedIntoStdout
deriving DecidableEq, Repr

/-- The keyword arguments of the one `subprocess.Popen` call made by
`exec_minipar_with_input`. -/
structure PopenCall where
  cmd : List String
  cwd : String
  stdoutMode : StdStream
  stderrMode : StdStream
  stdinMode : StdStream
  text : Bool
deriving DecidableEq, Repr

/-- One side effect performed by `exec_minipar_with_input`, in program
order: `os.makedirs(dir, exist_ok)`, opening the staged file in `"w"`
mode (which truncates it), writing to it, closing it at the end of the
`with` block, spawning the child, and writing/flushing/closing the
child's stdin handle. -/
inductive Event where
  | makedirs (dir : String) (existOk : Bool)
  | openForWrite (path : String)
  | fileWrite (path : String) (data : String)
  | fileClose (path : String)
  | popen (call : PopenCall)
  | stdinWrite (data : String)
  | stdinFlush
  | stdinClose
deriving DecidableEq, Repr

/-- The error raised when the interpreter executable cannot be found or
started (`subprocess.Popen` raising; surfaced as `SpawnError` in the
specification's taxonomy). -/
inductive SpawnError where
  | cannotStart
deriving DecidableEq, Repr

/-- Filesystem state: the set of existing directories and a map from
file path to current contents. -/
structure FS where
  dirs : List String
  files : List (String × String)
deriving DecidableEq, Repr

/-- All ancestors of a slash-separated path, innermost last; `makedirs`
creates every one of them. -/
def pathAncestors (p : String) : List String :=
  let parts := (splitOnSlash p).filter (fun s => s ≠ "")
  (List.range parts.length).map (fun i => joinSlash (parts.take (i + 1)))

/-- Update the contents of file `p` to `v`, replacing any previous entry. -/
def setFile (files : List (String × String)) (p v : String) : List (String × String) :=
  (p, v) :: files.filter (fun kv => kv.1 ≠ p)

/-- Current contents of file `p`, if it exists. -/
def lookupFile (files : List (String × String)) (p : String) : Option String :=
  (files.find? (fun kv => kv.1 = p)).map Prod.snd

/-- Interpretation of one event on the filesystem.  `makedirs` with
`exist_ok=True` creates every missing ancestor and succeeds silently if
they already exist; opening in `"w"` mode truncates the file; a write
appends to the (truncated) contents; process/stdin events do not touch
the filesystem. -/
def applyEvent (fs : FS) (e : Event) : FS :=
  match e with
  | .makedirs d _ => { fs with dirs := pathAncestors d ++ fs.dirs }
  | .openForWrite p => { fs with files := setFile fs.files p "" }
  | .fileWrite p data =>
      { fs with files := setFile fs.files p ((lookupFile fs.files p).getD "" ++ data) }
  | .fileClose _ => fs
  | .popen _ => fs
  | .stdinWrite _ => fs
  | .stdinFlush => fs
  | .stdinClose => fs

/-- Run a trace of events against a filesystem state, in order. -/
def runFS (fs : FS) (tr : List Event) : FS := tr.foldl applyEvent fs

/-- Lines observed when iterating the `process.stdout` handle returned by
`Popen`: with `stderr = pipe` (as in the source) they are exactly the
child's stdout lines; with `stderr = mergedIntoStdout` the stderr lines
would arrive on the same handle (arrival interleaving is unspecified by
the OS; modelled here as stdout followed by stderr, a branch the source
never takes). -/
def readableStream (call : PopenCall) (childStdout childStderr : List String) : List String :=
  match call.stderrMode with
  | .pipe => childStdout
  | .mergedIntoStdout => childStdout ++ childStderr

/-- The `Popen` call the source makes: `["./minipar", "tmp/prog.minipar"]`
with `cwd=os.path.dirname(MINIPAR_PATH)` and `PIPE` for all three
streams, `text=True`. -/
def minipar_popen_call : PopenCall :=
  { cmd := ["./minipar", osPathJoin "tmp" "prog.minipar"]
    cwd := osPathDirname MINIPAR_PATH
    stdoutMode := .pipe
    stderrMode := .pipe
    stdinMode := .pipe
    text := true }

/-- Embedding of `exec_minipar_with_input(code, user_input)` from
`src/web/main.py`.  Returns the ordered event trace it performs and
either the stdout stream it returns or the spawn error that propagates.
When `spawnOk = false` the `Popen` call raises, so the trace stops after
staging and nothing is written to stdin. -/
def exec_minipar_with_input (spawnOk : Bool) (childStdout childStderr : List String)
    (code user_input : String) :
    List Event × Except SpawnError (List String) :=
  let dir_path := "../minipar/tmp"
  let code_file := osPathJoin dir_path "prog.minipar"
  let staging : List Event :=
    [Event.makedirs dir_path true,
     Event.openForWrite code_file,
     Event.fileWrite code_file code,
     Event.fileClose code_file]
  if spawnOk then
    (staging ++
      [Event.popen minipar_popen_call,
       Event.stdinWrite (user_input ++ "\n"),
       Event.stdinFlush],
     Except.ok (readableStream minipar_popen_call childStdout childStderr))
  else
    (staging, Except.error SpawnError.cannotStart)

/-- Embedding of the generator `format_process_output(stdout)`:
`for line in stdout: yield "\n" + line`. -/
def format_process_output (stdout : List String) : List String :=
  stdout.map (fun line => "\n" ++ line)

/-- The output sequence the caller consumes: `exec_minipar_with_input`
composed with `format_process_output`.  When the spawn fails the
exception propagates and no element is ever yielded. -/
def run_output (spawnOk : Bool) (childStdout childStderr : List String)
    (code user_input : String) : List String :=
  match (exec_minipar_with_input spawnOk childStdout childStderr code user_input).2 with
  | Except.ok s => format_process_output s
  | Except.error _ => []

/-- The payloads of all writes to the child's stdin, in order. -/
def stdin_writes (tr : List Event) : List String :=
  tr.filterMap (fun e => match e with | .stdinWrite s => some s | _ => none)

/-- All operations on the child's stdin handle, in order. -/
def stdin_ops (tr : List Event) : List Event :=
  tr.filter (fun e =>
    match e with
    | .stdinWrite _ => true
    | .stdinFlush => true
    | .stdinClose => true
    | _ => false)

/-- All `Popen` calls in a trace, in order. -/
def popen_calls (tr : List Event) : List PopenCall :=
  tr.filterMap (fun e => match e with | .popen c => some c | _ => none)

/-- The paths of all files opened for writing in a trace, in order. -/
def staged_paths (tr : List Event) : List String :=
  tr.filterMap (fun e => match e with | .openForWrite p => some p | _ => none)

/-! Computed path facts shared by several theorems below. -/

/-- The staged file path `os.path.join("../minipar/tmp", "prog.minipar")`. -/
theorem code_file_path_eq :
    osPathJoin "../minipar/tmp" "prog.minipar" = "../minipar/tmp/prog.minipar" := by decide

/-- The child's working directory `os.path.dirname(MINIPAR_PATH)`. -/
theorem minipar_cwd_eq : osPathDirname MINIPAR_PATH = "../minipar" := by decide

/-- The directories `os.makedirs("../minipar/tmp", exist_ok=True)` creates. -/
theorem tmp_ancestors_eq :
    pathAncestors "../minipar/tmp" = ["..", "../minipar", "../minipar/tmp"] := by decide

/-- C1 (counterexample): the claim says the session's output sequence
equals exactly the lines the child emitted; but for a child that emits
the single line `"a"`, the session yields `["\na"]`, not `["a"]`, because
`format_process_output` prepends `"\n"` to every line. -/
theorem C1_counterexample_not_verbatim : run_output true ["a"] [] "" "" ≠ ["a"] := by decide

/-- C1 (amended): for a child emitting lines `L1, ..., Ln` in order, the
session's output sequence is exactly `["\n" ++ L1, ..., "\n" ++ Ln]` — the
same lines in the same order with no reordering, duplication or drop, but
each element carries a prepended `"\n"` rather than being verbatim. -/
theorem C1_order_preserved_with_newline_marker (childStdout childStderr : List String)
    (code user_input : String) :
    run_output true childStdout childStderr code user_input
      = childStdout.map (fun l => "\n" ++ l) := by
  simp [run_output, exec_minipar_with_input, readableStream, minipar_popen_call,
    format_process_output]

/-- C2 (counterexample): the claim says that when the runtime input is
empty the child's input channel is not written to; but with empty input
the source still executes `process.stdin.write(user_input + "\n")`, so
the channel observes the single write `"\n"`. -/
theorem C2_counterexample_empty_input_still_written :
    stdin_writes (exec_minipar_with_input true [] [] "x" "").1 = ["\n"] ∧
    stdin_writes (exec_minipar_with_input true [] [] "x" "").1 ≠ [] := by decide

/-- C2 (amended): for every runtime input `u` — including the empty
string — the child's input channel observes exactly one write carrying
the bytes `u ++ "\n"` and nothing more, performed immediately after the
spawn (trace positions 4, 5, 6: spawn, write, flush) and then flushed. -/
theorem C2_single_write_after_spawn_flushed (childStdout childStderr : List String)
    (code u : String) :
    stdin_writes (exec_minipar_with_input true childStdout childStderr code u).1 = [u ++ "\n"] ∧
    stdin_ops (exec_minipar_with_input true childStdout childStderr code u).1
      = [Event.stdinWrite (u ++ "\n"), Event.stdinFlush] ∧
    ((exec_minipar_with_input true childStdout childStderr code u).1).get? 4
      = some (Event.popen minipar_popen_call) ∧
    ((exec_minipar_with_input true childStdout childStderr code u).1).get? 5
      = some (Event.stdinWrite (u ++ "\n")) ∧
    ((exec_minipar_with_input true childStdout childStderr code u).1).get? 6
      = some Event.stdinFlush := by
  simp [exec_minipar_with_input, stdin_writes, stdin_ops]

/-- C3: when the child closes its output channel after emitting exactly
`n` lines, the returned output sequence yields exactly `n` elements and
then ends — no extra empty element is appended. -/
theorem C3_exactly_n_elements_then_end (childStdout childStderr : List String)
    (code u : String) :
    (run_output true childStdout childStderr code u).length = childStdout.length := by
  simp [run_output, exec_minipar_with_input, readableStream, minipar_popen_call,
    format_process_output]

/-- C4: staging source `S2` after having staged `S1` leaves the staged
file containing exactly `S2` with no residue of `S1` (open in `"w"` mode
truncates before the single full write), and both runs open the very same
staged path `../minipar/tmp/prog.minipar`, i.e. `tmp/prog.minipar` under
the interpreter directory. -/
theorem C4_idempotent_staging (fs : FS) (ok1 ok2 : Bool) (a b c d : List String)
    (S1 S2 u1 u2 : String) :
    lookupFile
        (runFS (runFS fs (exec_minipar_with_input ok1 a b S1 u1).1)
          (exec_minipar_with_input ok2 c d S2 u2).1).files
        "../minipar/tmp/prog.minipar" = some S2 ∧
    staged_paths (exec_minipar_with_input ok1 a b S1 u1).1 = ["../minipar/tmp/prog.minipar"] ∧
    staged_paths (exec_minipar_with_input ok2 c d S2 u2).1 = ["../minipar/tmp/prog.minipar"] := by
  cases ok1 <;> cases ok2 <;>
    simp [exec_minipar_with_input, runFS, applyEvent, setFile, lookupFile, staged_paths,
      code_file_path_eq, List.find?]

/-- C5: when the interpreter executable cannot be started, the run fails
with `SpawnError` (the `Popen` exception propagates), the output sequence
never yields a single element, and no child process is created. -/
theorem C5_spawn_failure_before_any_element (childStdout childStderr : List String)
    (code u : String) :
    (exec_minipar_with_input false childStdout childStderr code u).2
      = Except.error SpawnError.cannotStart ∧
    run_output false childStdout childStderr code u = [] ∧
    popen_calls (exec_minipar_with_input false childStdout childStderr code u).1 = [] := by
  simp [exec_minipar_with_input, run_output, popen_calls]

/-- C6: for every source text (the empty string included), staging
creates the target directory and its missing parents (succeeding when
already present — `makedirs` with `exist_ok=True` has no failure branch),
writes the source as the complete contents of the staged file replacing
any prior contents, and the write is closed (trace position 3) before the
spawn, which never occurs among the first four (staging) events. -/
theorem C6_staging_complete_before_spawn (fs : FS) (ok : Bool)
    (childStdout childStderr : List String) (code u : String) :
    "../minipar/tmp" ∈
      (runFS fs (exec_minipar_with_input ok childStdout childStderr code u).1).dirs ∧
    "../minipar" ∈
      (runFS fs (exec_minipar_with_input ok childStdout childStderr code u).1).dirs ∧
    lookupFile (runFS fs (exec_minipar_with_input ok childStdout childStderr code u).1).files
        "../minipar/tmp/prog.minipar" = some code ∧
    ((exec_minipar_with_input ok childStdout childStderr code u).1).get? 3
        = some (Event.fileClose "../minipar/tmp/prog.minipar") ∧
    popen_calls (((exec_minipar_with_input ok childStdout childStderr code u).1).take 4)
        = [] := by
  cases ok <;>
    simp [exec_minipar_with_input, runFS, applyEvent, setFile, lookupFile, popen_calls,
      code_file_path_eq, tmp_ancestors_eq, List.find?]

/-- C7 (counterexample): the claim says error-channel lines appear in
the returned output sequence interleaved with program output; but the
source passes `stderr=subprocess.PIPE` (a separate pipe, never read), so
for a child that emits only the diagnostic line shown, the returned
sequence is empty — the diagnostic never appears. -/
theorem C7_counterexample_stderr_line_absent :
    run_output true [] ["NameError: name x is not defined"] "x" "" = [] ∧
    minipar_popen_call.stderrMode = StdStream.pipe := by decide

/-- C7 (amended): the child's error channel is wired as a separate pipe
(`stderr=PIPE`, not merged into stdout); the returned output sequence
contains exactly the stdout lines and is entirely independent of whatever
the child writes on its error channel. -/
theorem C7_stderr_separate_never_in_sequence (childStdout childStderr childStderr2 : List String)
    (code u : String) :
    (popen_calls (exec_minipar_with_input true childStdout childStderr code u).1).map
        PopenCall.stderrMode = [StdStream.pipe] ∧
    run_output true childStdout childStderr code u
      = run_output true childStdout childStderr2 code u ∧
    run_output true childStdout childStderr code u = format_process_output childStdout := by
  simp [exec_minipar_with_input, run_output, popen_calls, readableStream, minipar_popen_call]

/-- C8: the child is spawned with exactly one positional argument — the
staged file's path `tmp/prog.minipar` relative to the interpreter's
working directory (resolving to the staged file under that directory) —
and its working directory is the interpreter's installation directory
`../minipar` (`os.path.dirname(MINIPAR_PATH)`), not the caller's `"."`. -/
theorem C8_invocation_single_relative_argument (childStdout childStderr : List String)
    (code u : String) :
    popen_calls (exec_minipar_with_input true childStdout childStderr code u).1
      = [minipar_popen_call] ∧
    minipar_popen_call.cmd = ["./minipar", "tmp/prog.minipar"] ∧
    minipar_popen_call.cmd.length = 2 ∧
    minipar_popen_call.cwd = osPathDirname MINIPAR_PATH ∧
    minipar_popen_call.cwd = "../minipar" ∧
    osPathJoin minipar_popen_call.cwd "tmp/prog.minipar" = "../minipar/tmp/prog.minipar" ∧
    minipar_popen_call.cwd ≠ "." := by
  refine ⟨?_, by decide⟩
  simp [exec_minipar_with_input, popen_calls]

/-- C9: `format_process_output` yields `"\n" ++ line` for every line read
from the child's output channel, and a string with `"\n"` prepended is
never equal to the original line, so yielded elements are never the
verbatim lines the child emitted. -/
theorem C9_yields_newline_prepended (stdout : List String) :
    format_process_output stdout = stdout.map (fun line => "\n" ++ line) ∧
    ∀ line : String, "\n" ++ line ≠ line := by
  refine ⟨rfl, ?_⟩
  intro line h
  have hlen := congrArg String.length h
  rw [String.length_append] at hlen
  have h1 : ("\n" : String).length = 1 := rfl
  omega

/-- C10: after the one-shot write the child's stdin handle is flushed and
never closed — the complete sequence of operations on the handle is
`[write (u ++ "\n"), flush]` with no close event anywhere in the run (in
the failed-spawn run the handle is never touched either), so a child
reading a second input line would block, never observing end-of-input. -/
theorem C10_stdin_flushed_never_closed (childStdout childStderr : List String)
    (code u : String) :
    stdin_ops (exec_minipar_with_input true childStdout childStderr code u).1
      = [Event.stdinWrite (u ++ "\n"), Event.stdinFlush] ∧
    Event.stdinClose ∉ (exec_minipar_with_input true childStdout childStderr code u).1 ∧
    Event.stdinClose ∉ (exec_minipar_with_input false childStdout childStderr code u).1 := by
  simp [exec_minipar_with_input, stdin_ops]
